import Mathlib

/-!
Verification of the `EvalWaiter` function-evaluation synchronization engine
(`src/debugger/evalwaiter.cpp` of the netcoredbg debugger).

The C++ class is embedded shallowly: the mutable members of `EvalWaiter`
(`m_evalResult`, `m_evalCanceled`, `m_evalCrossThreadDependency`) together with
the engine-visible effects that the claims talk about (whether the custom
cross-thread notification is enabled, and the run/suspend state of the inferior
threads) form an explicit state record `WaiterState`.  Each C++ method becomes a
pure function from state (plus the statuses the external debug engine would
return, collected in oracle records `Eval`, `Thread`, `Env`) to state plus
outputs.  Calls into the debug engine that matter for the claims are recorded in
an explicit trace of `EngineAction`s.  `HRESULT` values are modelled as signed
integers (the two's-complement reading of the 32-bit codes); `SUCCEEDED`/
`FAILED` are the sign tests from the PAL headers.
-/

namespace EvalWaiterSpec

/-- HRESULT, read as a signed 32-bit quantity.  Only the sign (success vs.
failure) and the pairwise distinctness of the named codes below matter for the
development. -/
abbrev HRESULT := Int

/-- SUCCEEDED(hr): a nonnegative HRESULT. -/
abbrev SUCCEEDED (hr : HRESULT) : Prop := 0 ≤ hr

/-- FAILED(hr): a negative HRESULT. -/
abbrev FAILED (hr : HRESULT) : Prop := hr < 0

/-- S_OK. -/
def S_OK : HRESULT := 0

/-- E_FAIL (0x80004005). -/
def E_FAIL : HRESULT := -2147467259

/-- E_UNEXPECTED (0x8000FFFF), the fatal/unrecoverable code of the abort-failed
path. -/
def E_UNEXPECTED : HRESULT := -2147418113

/-- COR_E_TIMEOUT (0x80131505). -/
def COR_E_TIMEOUT : HRESULT := -2146233083

/-- COR_E_OPERATIONCANCELED (0x8013153B). -/
def COR_E_OPERATIONCANCELED : HRESULT := -2146233029

/-- CORDBG_E_CANT_CALL_ON_THIS_THREAD (0x8013130D as signed); the headers
defining the numeric value are outside the provided sources, and only its
failure sign and distinctness from the other codes are used. -/
def CORDBG_E_CANT_CALL_ON_THIS_THREAD : HRESULT := -2146233587

/-- CORDBG_S_FUNC_EVAL_ABORTED (0x00131319 as signed): the success-class code an
aborted evaluation completes with; the headers defining the numeric value are
outside the provided sources, and only its success sign and distinctness are
used. -/
def CORDBG_S_FUNC_EVAL_ABORTED : HRESULT := 1250073

/-- CORDBG_S_FUNC_EVAL_HAS_NO_RESULT (0x00131316): success-class code for void
evaluations, mentioned in the source comment at `NotifyEvalComplete`. -/
def CORDBG_S_FUNC_EVAL_HAS_NO_RESULT : HRESULT := 1250070

/-- Oracle data for one `ICorDebugEval` handle: the statuses the engine would
return from `GetResult`, `Abort`, `QueryInterface(IID_ICorDebugEval2)` and
`RudeAbort`, plus the `ICorDebugValue` (modelled as an opaque numeric handle)
that `GetResult` would store. -/
structure Eval where
  getResultStatus : HRESULT
  getResultValue : Option Nat
  abortStatus : HRESULT
  queryEval2Status : HRESULT
  rudeAbortStatus : HRESULT
deriving DecidableEq

/-- Oracle data for one `ICorDebugThread`: the status `GetID` would return and
the id it would store. -/
structure Thread where
  getIdStatus : HRESULT
  id : Nat
deriving DecidableEq

/-- `evalResultData_t`: the evaluation outcome delivered through the promise —
a status code and an optional result value handle. -/
structure evalResultData_t where
  Status : HRESULT
  iCorEval : Option Nat
deriving DecidableEq

/-- Modelled from the spec: `evalResultData_t` is declared in
`debugger/evalwaiter.h`, which is not among the provided sources; the spec's
data model gives `EvaluationOutcome = { statusCode, resultValueHandle
(optional) }` and says nothing about a default status.  This constant stands
for the status field of a default-constructed outcome, i.e. one whose status
was never read from any engine handle. -/
def evalResultDataDefaultStatus : HRESULT := 0

/-- The outcome record built by `NotifyEvalComplete`: if an eval handle was
supplied, its `GetResult` status and value are read; otherwise the
default-constructed record is delivered. -/
def GetResultData (pEval : Option Eval) : evalResultData_t :=
  match pEval with
  | none => { Status := evalResultDataDefaultStatus, iCorEval := none }
  | some e => { Status := e.getResultStatus, iCorEval := e.getResultValue }

/-- `evalResult_t`: the armed evaluation request — the owner thread id, the
eval handle, and (implicitly, via the functions below) the promise. -/
structure evalResult_t where
  threadId : Nat
  pEval : Eval
deriving DecidableEq

/-- The `EvalWaiter` state: `m_evalResult` (the Result Slot), the two
disambiguation flags, plus the engine-visible state the claims mention —
whether the custom cross-thread notification is enabled for the process, and
the run (`true`) / suspended (`false`) state of each inferior thread. -/
structure WaiterState where
  m_evalResult : Option evalResult_t
  m_evalCanceled : Bool
  m_evalCrossThreadDependency : Bool
  notificationEnabled : Bool
  threadStates : List (Nat × Bool)
deriving DecidableEq

/-- `EvalWaiter::NotifyEvalComplete`.  Returns the new state together with the
value delivered to the promise (`none` when no promise was fulfilled).  A null
thread clears the slot unconditionally without fulfilling; a non-null thread
fulfills and clears only when its id matches the armed request's owner. -/
def NotifyEvalComplete (st : WaiterState) (pThread : Option Thread)
    (pEval : Option Eval) : WaiterState × Option evalResultData_t :=
  match pThread with
  | none => ({ st with m_evalResult := none }, none)
  | some th =>
    let threadId := th.id
    let ppEvalResult := GetResultData pEval
    match st.m_evalResult with
    | none => (st, none)
    | some er =>
      if er.threadId = threadId then
        ({ st with m_evalResult := none }, some ppEvalResult)
      else
        (st, none)

/-- `EvalWaiter::IsEvalRunning`: whether the Result Slot is armed. -/
def IsEvalRunning (st : WaiterState) : Bool :=
  st.m_evalResult.isSome

/-- `EvalWaiter::CancelEvalRunning`: no-op with no armed request; otherwise
tries `Abort`, falling back to `QueryInterface` + `RudeAbort`, and sets
`m_evalCanceled` exactly when one of the aborts succeeds. -/
def CancelEvalRunning (st : WaiterState) : WaiterState :=
  match st.m_evalResult with
  | none => st
  | some er =>
    if SUCCEEDED er.pEval.abortStatus ∨
       (SUCCEEDED er.pEval.queryEval2Status ∧ SUCCEEDED er.pEval.rudeAbortStatus) then
      { st with m_evalCanceled := true }
    else
      st

/-- `EvalWaiter::FindEvalForThread`: the armed request's eval handle, provided
`GetID` succeeds, a request is armed, and the ids match. -/
def FindEvalForThread (st : WaiterState) (pThread : Thread) : Option Eval :=
  if FAILED pThread.getIdStatus then none
  else
    match st.m_evalResult with
    | none => none
    | some er => if er.threadId = pThread.id then some er.pEval else none

/-- `EvalWaiter::ManagedCallbackCustomNotification`: no-op (S_OK) when no
evaluation is active for the notifying thread; otherwise graceful abort with
rude-abort fallback, setting `m_evalCrossThreadDependency` on success and
returning the last engine error when both fail. -/
def ManagedCallbackCustomNotification (st : WaiterState) (pThread : Thread) :
    WaiterState × HRESULT :=
  match FindEvalForThread st pThread with
  | none => (st, S_OK)
  | some e =>
    if SUCCEEDED e.abortStatus then
      ({ st with m_evalCrossThreadDependency := true }, S_OK)
    else if FAILED e.queryEval2Status then
      (st, e.queryEval2Status)
    else if SUCCEEDED e.rudeAbortStatus then
      ({ st with m_evalCrossThreadDependency := true }, S_OK)
    else
      (st, e.rudeAbortStatus)

/-- Engine calls recorded in the trace of a `WaitEvalResult` run. -/
inductive EngineAction
  | enableNotification
  | disableNotification
  | suspendOtherThreads
  | resumeOtherThreads
  | createEval
  | setupCallbackCall
  | continueProcess
  | stopProcess
  | abortEval
  | rudeAbortEval
  | waitFor (ms : Nat)
deriving DecidableEq

/-- `EvalWaiter::RunEval`.  The `assert(!m_evalResult)` contract check is
modelled as the `Except.error` outcome: arming a second request is a contract
violation and produces no new state.  Otherwise the slot is armed, the setup
callback is invoked (its status is the oracle `setupStatus`), and on setup
success the process is continued; on either failure the slot is cleared.  The
returned `HRESULT` is the by-reference `Status` out-parameter; the action list
records the setup-callback invocation and the `Continue` call. -/
def RunEval (st : WaiterState) (threadId : Nat) (pEval : Eval)
    (setupStatus continueStatus : HRESULT) :
    Except Unit (WaiterState × HRESULT × List EngineAction) :=
  if st.m_evalResult.isSome then
    Except.error ()
  else
    let armed : WaiterState :=
      { st with m_evalResult := some { threadId := threadId, pEval := pEval } }
    if FAILED setupStatus then
      Except.ok ({ armed with m_evalResult := none }, setupStatus,
        [EngineAction.setupCallbackCall])
    else if FAILED continueStatus then
      Except.ok ({ armed with m_evalResult := none }, continueStatus,
        [EngineAction.setupCallbackCall, EngineAction.continueProcess])
    else
      Except.ok (armed, continueStatus,
        [EngineAction.setupCallbackCall, EngineAction.continueProcess])

/-- The `ChangeThreadsState` lambda of `WaitEvalResult`: walk the inferior's
threads and set every one except the eval thread to the target state
(`run = true` for THREAD_RUN, `false` for THREAD_SUSPEND).  Best-effort: a
thread whose `SetDebugState` fails (its id is in `failIds`) keeps its previous
state (the C++ only logs a warning). -/
def ChangeThreadsState (failIds : List Nat) (evalThreadId : Nat) (run : Bool)
    (ts : List (Nat × Bool)) : List (Nat × Bool) :=
  ts.map fun p =>
    if p.1 ≠ evalThreadId ∧ p.1 ∉ failIds then (p.1, run) else p

/-- When (relative to the two bounded waits) the completion callback fires for
the armed request: within the primary 5000 ms window, within the 5000 ms
abort-grace window, never, or the request is abandoned during the wait by a
`NotifyEvalComplete(null)` reset (the promise is destroyed unfulfilled and
`future::get` throws, landing in the `catch (const std::future_error&)`
branch). -/
inductive Arrival
  | primary
  | grace
  | never
  | abandoned
deriving DecidableEq

/-- The oracle for one `WaitEvalResult` run: every status the external debug
engine returns to it, the created eval handle's oracle data, the completion
schedule and the delivered outcome, whether the caller passed a non-null
`ppEvalResult` out-slot, which per-thread `SetDebugState` calls fail, and
whether concurrent `CancelEvalRunning` / cross-thread notification callbacks
set the two flags while the run was waiting. -/
structure Env where
  getProcessStatus : HRESULT
  processNull : Bool
  getIdStatus : HRESULT
  evalThreadId : Nat
  createEvalStatus : HRESULT
  eval : Eval
  setupStatus : HRESULT
  continueStatus : HRESULT
  arrival : Arrival
  delivered : evalResultData_t
  outSlotProvided : Bool
  suspendFailIds : List Nat
  timeoutResumeFailIds : List Nat
  resumeFailIds : List Nat
  canceledDuringRun : Bool
  crossThreadDuringRun : Bool
deriving DecidableEq

/-- The final status translation of `WaitEvalResult` (lines 233-244): an
`CORDBG_S_FUNC_EVAL_ABORTED` raw status is disambiguated by the two flags with
cross-thread dependency taking precedence; any other raw status of a timed-out
run is forced to `COR_E_TIMEOUT` unless it is already `E_UNEXPECTED`. -/
def translateStatus (raw : HRESULT) (crossThread canceled evalTimeOut : Bool) :
    HRESULT :=
  if raw = CORDBG_S_FUNC_EVAL_ABORTED then
    if crossThread then CORDBG_E_CANT_CALL_ON_THIS_THREAD
    else if canceled then COR_E_OPERATIONCANCELED
    else COR_E_TIMEOUT
  else if evalTimeOut then
    if raw = E_UNEXPECTED then E_UNEXPECTED else COR_E_TIMEOUT
  else raw

/-- What the `WaitResult` lambda returns: the raw status, the value stored into
the caller's out-slot (if any), the state and engine-action trace after the
lambda, and the `evalTimeOut` flag. -/
structure WaitResultRaw where
  raw : HRESULT
  outVal : Option Nat
  st : WaiterState
  tr : List EngineAction
  evalTimeOut : Bool
deriving DecidableEq

/-- The completion callback's effect as observed by the waiting thread: the
slot was cleared by `NotifyEvalComplete` (or by the fatal path), and any
concurrently-running `CancelEvalRunning` / custom-notification callback has set
the corresponding flag. -/
def clearSlotAndSetFlags (st : WaiterState) (env : Env) : WaiterState :=
  { st with m_evalResult := none,
            m_evalCanceled := env.canceledDuringRun,
            m_evalCrossThreadDependency := env.crossThreadDuringRun }

/-- The primary-timeout escalation (lines 172-196): `Stop`, forcibly resume all
other threads, graceful abort with rude-abort fallback (errors ignored), then
`Continue` so the abort can be processed.  Returns the new state and the
actions performed. -/
def timeoutEscalation (st : WaiterState) (env : Env) :
    WaiterState × List EngineAction :=
  ({ st with threadStates :=
       (ChangeThreadsState env.timeoutResumeFailIds env.evalThreadId true
         st.threadStates) },
   [EngineAction.stopProcess, EngineAction.resumeOtherThreads,
    EngineAction.abortEval] ++
   (if FAILED env.eval.abortStatus ∧ SUCCEEDED env.eval.queryEval2Status then
      [EngineAction.rudeAbortEval]
    else []) ++
   [EngineAction.continueProcess])

/-- Lines 210-217: fetch the outcome; a failing outcome status is returned at
once (`IfFailRet`); with a null out-slot the raw result is `S_OK`; otherwise
the result value handle is stored into the out-slot and the outcome's status is
the raw result. -/
def deliverOutcome (st : WaiterState) (tr : List EngineAction)
    (evalTimeOut : Bool) (env : Env) : WaitResultRaw :=
  if FAILED env.delivered.Status then
    { raw := env.delivered.Status, outVal := none, st := st, tr := tr,
      evalTimeOut := evalTimeOut }
  else if env.outSlotProvided = false then
    { raw := S_OK, outVal := none, st := st, tr := tr,
      evalTimeOut := evalTimeOut }
  else
    { raw := env.delivered.Status, outVal := env.delivered.iCorEval, st := st,
      tr := tr, evalTimeOut := evalTimeOut }

/-- The two bounded waits of the `WaitResult` lambda, by completion schedule:
an arrival within the primary window skips the escalation; an arrival within
the grace window runs the escalation first and sets `evalTimeOut`; no arrival
at all runs the escalation, then hits the fatal branch (`Stop`, forcibly clear
the Result Slot, `E_UNEXPECTED`); an abandoned promise makes `future::get`
throw and the catch branch returns `E_FAIL`. -/
def waitPhase (st : WaiterState) (tr : List EngineAction) (env : Env) :
    WaitResultRaw :=
  match env.arrival with
  | Arrival.primary =>
    deliverOutcome (clearSlotAndSetFlags st env)
      (tr ++ [EngineAction.waitFor 5000, EngineAction.waitFor 5000]) false env
  | Arrival.grace =>
    let esc := timeoutEscalation st env
    deliverOutcome (clearSlotAndSetFlags esc.1 env)
      (tr ++ [EngineAction.waitFor 5000] ++ esc.2 ++ [EngineAction.waitFor 5000])
      true env
  | Arrival.never =>
    let esc := timeoutEscalation st env
    { raw := E_UNEXPECTED, outVal := none,
      st := clearSlotAndSetFlags esc.1 env,
      tr := tr ++ [EngineAction.waitFor 5000] ++ esc.2 ++
            [EngineAction.waitFor 5000, EngineAction.stopProcess],
      evalTimeOut := true }
  | Arrival.abandoned =>
    { raw := E_FAIL, outVal := none, st := clearSlotAndSetFlags st env,
      tr := tr ++ [EngineAction.waitFor 5000, EngineAction.waitFor 5000],
      evalTimeOut := false }

/-- State after the `ChangeThreadsState(THREAD_SUSPEND)` call at the top of the
`WaitResult` lambda. -/
def stSuspended (st : WaiterState) (env : Env) : WaiterState :=
  { st with threadStates :=
      (ChangeThreadsState env.suspendFailIds env.evalThreadId false
        st.threadStates) }

/-- The `WaitResult` lambda (lines 149-223): suspend the other threads, create
the eval handle (`IfFailRet`), run `RunEval` (`IfFailRet` on its status), then
wait per the completion schedule.  The contract-violation outcome of `RunEval`
propagates as `Except.error`. -/
def WaitResultLambda (st : WaiterState) (env : Env) :
    Except Unit WaitResultRaw :=
  let st1 : WaiterState := stSuspended st env
  if FAILED env.createEvalStatus then
    Except.ok
      { raw := env.createEvalStatus, outVal := none, st := st1,
        tr := [EngineAction.suspendOtherThreads, EngineAction.createEval],
        evalTimeOut := false }
  else
    match RunEval st1 env.evalThreadId env.eval env.setupStatus
        env.continueStatus with
    | Except.error e => Except.error e
    | Except.ok (st2, runStatus, runTr) =>
      let tr0 := [EngineAction.suspendOtherThreads, EngineAction.createEval] ++
        runTr
      if FAILED runStatus then
        Except.ok
          { raw := runStatus, outVal := none, st := st2, tr := tr0,
            evalTimeOut := false }
      else
        Except.ok (waitPhase st2 tr0 env)

/-- The result of one `WaitEvalResult` call: the returned HRESULT, the value
stored into the caller's `ppEvalResult` out-slot (`none` when untouched), the
final state, the engine-action trace and whether the primary wait timed out. -/
structure WaitResultOutcome where
  hr : HRESULT
  outValue : Option Nat
  finalState : WaiterState
  trace : List EngineAction
  evalTimedOut : Bool
deriving DecidableEq

/-- Outcome of a `WaitEvalResult` early exit (`GetProcess` / null process /
`GetID` failure): no engine action was performed, state untouched. -/
def earlyReturn (st : WaiterState) (hr : HRESULT) : WaitResultOutcome :=
  { hr := hr, outValue := none, finalState := st, trace := [],
    evalTimedOut := false }

/-- State after `SetEnableCustomNotification(.., TRUE)` and the flag reset at
lines 225-228. -/
def stEnabled (st : WaiterState) : WaiterState :=
  { st with notificationEnabled := true, m_evalCanceled := false,
            m_evalCrossThreadDependency := false }

/-- The tail of `WaitEvalResult` (lines 231-247): disable the custom
notification, translate the raw status using the flags, resume all other
threads, and package the outcome. -/
def assembleOutcome (r : WaitResultRaw) (env : Env) : WaitResultOutcome :=
  { hr := translateStatus r.raw r.st.m_evalCrossThreadDependency
      r.st.m_evalCanceled r.evalTimeOut,
    outValue := r.outVal,
    finalState :=
      { r.st with
          notificationEnabled := false,
          threadStates :=
            (ChangeThreadsState env.resumeFailIds env.evalThreadId true
              r.st.threadStates) },
    trace := [EngineAction.enableNotification] ++ r.tr ++
      [EngineAction.disableNotification, EngineAction.resumeOtherThreads],
    evalTimedOut := r.evalTimeOut }

/-- `EvalWaiter::WaitEvalResult` (lines 105-248).  Resolve the process and the
requesting thread id (fail fast), enable the custom notification and reset the
two flags, run the `WaitResult` lambda, disable the notification, translate the
raw status, and resume all other threads before returning. -/
def WaitEvalResult (st : WaiterState) (env : Env) :
    Except Unit WaitResultOutcome :=
  if FAILED env.getProcessStatus then
    Except.ok (earlyReturn st env.getProcessStatus)
  else if env.processNull = true then
    Except.ok (earlyReturn st E_FAIL)
  else if FAILED env.getIdStatus then
    Except.ok (earlyReturn st env.getIdStatus)
  else
    match WaitResultLambda (stEnabled st) env with
    | Except.error e => Except.error e
    | Except.ok r => Except.ok (assembleOutcome r env)

/-- Total wait budget (in milliseconds) of the bounded waits in a trace. -/
def waitBudget (tr : List EngineAction) : Nat :=
  (tr.map fun a => match a with | EngineAction.waitFor n => n | _ => 0).sum

/-- Every thread except the eval thread whose final resume was not rejected by
the engine is in the running state. -/
def allOthersRunning (ts : List (Nat × Bool)) (evalThreadId : Nat)
    (failIds : List Nat) : Bool :=
  ts.all fun p => p.1 = evalThreadId ∨ p.1 ∈ failIds ∨ p.2 = true

/-- Projection used by closed counterexample statements: the returned HRESULT
of a run, if it completed. -/
def outcomeHr (r : Except Unit WaitResultOutcome) : Option HRESULT :=
  match r with
  | Except.ok o => some o.hr
  | Except.error _ => none

/-- Decidable equality for run results, so that witnesses can be checked by
evaluation. -/
instance {e a : Type} [DecidableEq e] [DecidableEq a] :
    DecidableEq (Except e a) := fun x y =>
  match x, y with
  | Except.error u, Except.error v =>
    if h : u = v then isTrue (by rw [h]) else
      isFalse (fun hc => h (Except.error.inj hc))
  | Except.ok u, Except.ok v =>
    if h : u = v then isTrue (by rw [h]) else
      isFalse (fun hc => h (Except.ok.inj hc))
  | Except.error _, Except.ok _ => isFalse (fun hc => Except.noConfusion hc)
  | Except.ok _, Except.error _ => isFalse (fun hc => Except.noConfusion hc)

/-- The completed outcome of a run (defaulting to an early return record when
the run hit the contract-violation path); used by concrete witnesses. -/
def okOutcome (st : WaiterState) (env : Env) : WaitResultOutcome :=
  match WaitEvalResult st env with
  | Except.ok o => o
  | Except.error _ => earlyReturn st S_OK

/-- A fully-successful eval-handle oracle used by concrete witnesses. -/
def evalOK : Eval :=
  { getResultStatus := S_OK, getResultValue := some 42, abortStatus := S_OK,
    queryEval2Status := S_OK, rudeAbortStatus := S_OK }

/-- Eval-handle oracle whose graceful abort fails but whose rude abort
succeeds. -/
def evalAbortFallback : Eval :=
  { getResultStatus := S_OK, getResultValue := none, abortStatus := E_FAIL,
    queryEval2Status := S_OK, rudeAbortStatus := S_OK }

/-- Eval-handle oracle whose graceful abort and `QueryInterface` both fail. -/
def evalAbortQIFail : Eval :=
  { getResultStatus := S_OK, getResultValue := none, abortStatus := E_FAIL,
    queryEval2Status := E_UNEXPECTED, rudeAbortStatus := S_OK }

/-- Eval-handle oracle whose graceful and rude aborts both fail. -/
def evalAbortBothFail : Eval :=
  { getResultStatus := S_OK, getResultValue := none, abortStatus := E_FAIL,
    queryEval2Status := S_OK, rudeAbortStatus := E_UNEXPECTED }

/-- Thread 7 with a successful `GetID`. -/
def th7 : Thread := { getIdStatus := S_OK, id := 7 }

/-- Thread 9 with a successful `GetID`. -/
def th9 : Thread := { getIdStatus := S_OK, id := 9 }

/-- An idle waiter state over three inferior threads (thread 9 starts
suspended); used by concrete witnesses. -/
def stIdle : WaiterState :=
  { m_evalResult := none, m_evalCanceled := false,
    m_evalCrossThreadDependency := false, notificationEnabled := false,
    threadStates := [(7, true), (8, true), (9, false)] }

/-- A waiter state with a request armed for thread 7 over the given eval
handle. -/
def stArmed7With (e : Eval) : WaiterState :=
  { stIdle with m_evalResult := some { threadId := 7, pEval := e } }

/-- A waiter state with a request armed for thread 7. -/
def stArmed7 : WaiterState := stArmed7With evalOK

/-- A fully-successful environment: thread 7 evaluates, completion arrives in
the primary window with a result value. -/
def envBase : Env :=
  { getProcessStatus := S_OK, processNull := false, getIdStatus := S_OK,
    evalThreadId := 7, createEvalStatus := S_OK, eval := evalOK,
    setupStatus := S_OK, continueStatus := S_OK, arrival := Arrival.primary,
    delivered := { Status := S_OK, iCorEval := some 42 },
    outSlotProvided := true, suspendFailIds := [], timeoutResumeFailIds := [],
    resumeFailIds := [], canceledDuringRun := false,
    crossThreadDuringRun := false }

/-- Environment in which the delivered outcome carries a failure status. -/
def envDeliveredFail : Env :=
  { envBase with delivered := { Status := E_FAIL, iCorEval := none } }

/-- Environment in which no completion ever arrives. -/
def envNever : Env := { envBase with arrival := Arrival.never }

/-- Environment in which completion arrives only in the abort-grace window. -/
def envGrace : Env := { envBase with arrival := Arrival.grace }

/-- Environment in which completion arrives in the grace window carrying the
fatal `E_UNEXPECTED` status itself: the counterexample input. -/
def envGraceUnexpected : Env :=
  { envBase with
    arrival := Arrival.grace,
    delivered := { Status := E_UNEXPECTED, iCorEval := none } }

/-- Environment in which the delivered outcome is `CORDBG_S_FUNC_EVAL_ABORTED`
after a concurrent user cancellation set the `canceled` flag. -/
def envAbortedCanceled : Env :=
  { envBase with
    delivered := { Status := CORDBG_S_FUNC_EVAL_ABORTED, iCorEval := none },
    canceledDuringRun := true }

/-- Environment in which the setup callback fails. -/
def envSetupFail : Env := { envBase with setupStatus := E_FAIL }

/-- Eval-handle oracle whose `GetResult` reports a failure and no value. -/
def evalResultFail : Eval :=
  { getResultStatus := E_FAIL, getResultValue := none, abortStatus := S_OK,
    queryEval2Status := S_OK, rudeAbortStatus := S_OK }

/-- The outcome delivered by a completion over `evalResultFail`. -/
def dFail : evalResultData_t := { Status := E_FAIL, iCorEval := none }

/-- The outcome delivered by a completion over `evalOK`. -/
def dOK : evalResultData_t := { Status := S_OK, iCorEval := some 42 }

/-- `stArmed7` after its promise has been fulfilled and the slot cleared. -/
def stCleared : WaiterState := { stArmed7 with m_evalResult := none }

/-- The exact engine-action trace of a run in which no completion ever
arrives: suspend, create, setup, continue, the primary wait, then the
abort escalation (stop, resume-all, abort with rude fallback, continue), the
grace wait, the fatal stop, and the guaranteed disable-and-resume cleanup. -/
def neverTrace (env : Env) : List EngineAction :=
  [EngineAction.enableNotification, EngineAction.suspendOtherThreads,
   EngineAction.createEval, EngineAction.setupCallbackCall,
   EngineAction.continueProcess, EngineAction.waitFor 5000,
   EngineAction.stopProcess, EngineAction.resumeOtherThreads,
   EngineAction.abortEval] ++
  (if FAILED env.eval.abortStatus ∧ SUCCEEDED env.eval.queryEval2Status then
     [EngineAction.rudeAbortEval]
   else []) ++
  [EngineAction.continueProcess, EngineAction.waitFor 5000,
   EngineAction.stopProcess, EngineAction.disableNotification,
   EngineAction.resumeOtherThreads]

/- Helper lemmas shared by the claim theorems. -/

theorem succeeded_not_failed {hr : HRESULT} (h : SUCCEEDED hr) :
    ¬ FAILED hr :=
  not_lt.mpr h

theorem failed_ne_aborted {hr : HRESULT} (h : FAILED hr) :
    hr ≠ CORDBG_S_FUNC_EVAL_ABORTED := by
  intro he
  rw [he] at h
  exact absurd h (by decide)

theorem translate_no_abort_no_timeout (raw : HRESULT) (c k : Bool)
    (h : raw ≠ CORDBG_S_FUNC_EVAL_ABORTED) :
    translateStatus raw c k false = raw := by
  unfold translateStatus
  rw [if_neg h]
  simp

theorem translate_no_abort_timeout (raw : HRESULT) (c k : Bool)
    (h : raw ≠ CORDBG_S_FUNC_EVAL_ABORTED) :
    translateStatus raw c k true =
      (if raw = E_UNEXPECTED then E_UNEXPECTED else COR_E_TIMEOUT) := by
  unfold translateStatus
  rw [if_neg h]
  simp

theorem translate_aborted (c k t : Bool) :
    translateStatus CORDBG_S_FUNC_EVAL_ABORTED c k t =
      (if c then CORDBG_E_CANT_CALL_ON_THIS_THREAD
       else if k then COR_E_OPERATIONCANCELED else COR_E_TIMEOUT) := by
  unfold translateStatus
  rw [if_pos rfl]

theorem waitEvalResult_eq (st : WaiterState) (env : Env)
    (h1 : ¬ FAILED env.getProcessStatus) (h2 : env.processNull = false)
    (h3 : ¬ FAILED env.getIdStatus) :
    WaitEvalResult st env =
      (match WaitResultLambda (stEnabled st) env with
       | Except.error e => Except.error e
       | Except.ok r => Except.ok (assembleOutcome r env)) := by
  unfold WaitEvalResult
  rw [if_neg h1, if_neg (by simp [h2]), if_neg h3]

theorem waitResultLambda_eq (st : WaiterState) (env : Env)
    (hst : st.m_evalResult = none) :
    WaitResultLambda st env =
      (if FAILED env.createEvalStatus then
        Except.ok
          { raw := env.createEvalStatus, outVal := none,
            st := stSuspended st env,
            tr := [EngineAction.suspendOtherThreads, EngineAction.createEval],
            evalTimeOut := false }
      else if FAILED env.setupStatus then
        Except.ok
          { raw := env.setupStatus, outVal := none,
            st := { stSuspended st env with m_evalResult := none },
            tr := [EngineAction.suspendOtherThreads, EngineAction.createEval,
                   EngineAction.setupCallbackCall],
            evalTimeOut := false }
      else if FAILED env.continueStatus then
        Except.ok
          { raw := env.continueStatus, outVal := none,
            st := { stSuspended st env with m_evalResult := none },
            tr := [EngineAction.suspendOtherThreads, EngineAction.createEval,
                   EngineAction.setupCallbackCall,
                   EngineAction.continueProcess],
            evalTimeOut := false }
      else
        Except.ok (waitPhase
          { stSuspended st env with
              m_evalResult :=
                some { threadId := env.evalThreadId, pEval := env.eval } }
          [EngineAction.suspendOtherThreads, EngineAction.createEval,
           EngineAction.setupCallbackCall, EngineAction.continueProcess]
          env)) := by
  have h : (stSuspended st env).m_evalResult.isSome = false := by
    simp [stSuspended, hst]
  by_cases hc : FAILED env.createEvalStatus
  · simp [WaitResultLambda, RunEval, h, hc]
  · by_cases hs : FAILED env.setupStatus
    · simp [WaitResultLambda, RunEval, h, hc, hs]
    · by_cases hk : FAILED env.continueStatus
      · simp [WaitResultLambda, RunEval, h, hc, hs, hk]
      · simp [WaitResultLambda, RunEval, h, hc, hs, hk]

theorem failed_not_succeeded {hr : HRESULT} (h : FAILED hr) :
    ¬ SUCCEEDED hr :=
  not_le.mpr h

theorem deliverOutcome_st (st : WaiterState) (tr : List EngineAction)
    (t : Bool) (env : Env) : (deliverOutcome st tr t env).st = st := by
  unfold deliverOutcome
  split_ifs <;> rfl

theorem deliverOutcome_tr (st : WaiterState) (tr : List EngineAction)
    (t : Bool) (env : Env) : (deliverOutcome st tr t env).tr = tr := by
  unfold deliverOutcome
  split_ifs <;> rfl

theorem deliverOutcome_evalTimeOut (st : WaiterState) (tr : List EngineAction)
    (t : Bool) (env : Env) : (deliverOutcome st tr t env).evalTimeOut = t := by
  unfold deliverOutcome
  split_ifs <;> rfl

theorem waitPhase_st_slot_none (st : WaiterState) (tr : List EngineAction)
    (env : Env) : (waitPhase st tr env).st.m_evalResult = none := by
  cases h : env.arrival <;>
    simp [waitPhase, h, deliverOutcome_st, clearSlotAndSetFlags]

theorem waitResultLambda_slot_none (st : WaiterState) (env : Env)
    (hst : st.m_evalResult = none) (r : WaitResultRaw)
    (h : WaitResultLambda st env = Except.ok r) :
    r.st.m_evalResult = none := by
  rw [waitResultLambda_eq st env hst] at h
  by_cases hc : FAILED env.createEvalStatus
  · rw [if_pos hc] at h
    simp only [Except.ok.injEq] at h
    rw [← h]
    simpa [stSuspended] using hst
  · rw [if_neg hc] at h
    by_cases hs : FAILED env.setupStatus
    · rw [if_pos hs] at h
      simp only [Except.ok.injEq] at h
      rw [← h]
    · rw [if_neg hs] at h
      by_cases hk : FAILED env.continueStatus
      · rw [if_pos hk] at h
        simp only [Except.ok.injEq] at h
        rw [← h]
      · rw [if_neg hk] at h
        simp only [Except.ok.injEq] at h
        rw [← h]
        exact waitPhase_st_slot_none _ _ _

theorem waitEvalResult_final_slot_none (st : WaiterState) (env : Env)
    (hst : st.m_evalResult = none) (o : WaitResultOutcome)
    (hok : WaitEvalResult st env = Except.ok o) :
    o.finalState.m_evalResult = none := by
  unfold WaitEvalResult at hok
  by_cases h1 : FAILED env.getProcessStatus
  · rw [if_pos h1] at hok
    simp only [Except.ok.injEq] at hok
    rw [← hok]
    exact hst
  · rw [if_neg h1] at hok
    by_cases h2 : env.processNull = true
    · rw [if_pos h2] at hok
      simp only [Except.ok.injEq] at hok
      rw [← hok]
      exact hst
    · rw [if_neg h2] at hok
      by_cases h3 : FAILED env.getIdStatus
      · rw [if_pos h3] at hok
        simp only [Except.ok.injEq] at hok
        rw [← hok]
        exact hst
      · rw [if_neg h3] at hok
        cases hw : WaitResultLambda (stEnabled st) env with
        | error e => rw [hw] at hok; exact absurd hok (by simp)
        | ok r =>
          rw [hw] at hok
          simp only [Except.ok.injEq] at hok
          rw [← hok]
          have : r.st.m_evalResult = none :=
            waitResultLambda_slot_none (stEnabled st) env hst r hw
          simpa [assembleOutcome] using this

theorem waitEvalResult_success_shape (stIn : WaiterState) (env : Env)
    (hIn : stIn.m_evalResult = none)
    (h1 : ¬ FAILED env.getProcessStatus) (h2 : env.processNull = false)
    (h3 : ¬ FAILED env.getIdStatus) (h4 : ¬ FAILED env.createEvalStatus)
    (h5 : ¬ FAILED env.setupStatus) (h6 : ¬ FAILED env.continueStatus) :
    WaitEvalResult stIn env =
      Except.ok (assembleOutcome (waitPhase
        { stSuspended (stEnabled stIn) env with
            m_evalResult :=
              some { threadId := env.evalThreadId, pEval := env.eval } }
        [EngineAction.suspendOtherThreads, EngineAction.createEval,
         EngineAction.setupCallbackCall, EngineAction.continueProcess]
        env) env) := by
  rw [waitEvalResult_eq stIn env h1 h2 h3,
      waitResultLambda_eq (stEnabled stIn) env hIn]
  rw [if_neg h4, if_neg h5, if_neg h6]

theorem notify_delivered_slot_none (st st' : WaiterState) (th : Thread)
    (p : Option Eval) (d : evalResultData_t)
    (h : NotifyEvalComplete st (some th) p = (st', some d)) :
    st'.m_evalResult = none := by
  cases hm : st.m_evalResult with
  | none =>
    simp [NotifyEvalComplete, hm] at h
  | some er =>
    by_cases he : er.threadId = th.id
    · simp only [NotifyEvalComplete, hm, if_pos he, Prod.mk.injEq] at h
      rw [← h.1]
    · simp [NotifyEvalComplete, hm, he] at h

theorem notify_none_slot (st : WaiterState) (th : Thread) (p : Option Eval)
    (hst : st.m_evalResult = none) :
    NotifyEvalComplete st (some th) p = (st, none) := by
  simp [NotifyEvalComplete, hst]

/-- C5: at most one EvaluationRequest exists at any instant — an attempt to arm
a second request (`RunEval`) while one is already armed is rejected as a
contract violation (the `assert(!m_evalResult)` path, modelled as
`Except.error ()`) and never produces a state in which the first armed request
has been silently overwritten. -/
theorem claim_C5 (st : WaiterState) (threadId : Nat) (pEval : Eval)
    (setupStatus continueStatus : HRESULT)
    (h : st.m_evalResult.isSome = true) :
    RunEval st threadId pEval setupStatus continueStatus = Except.error () := by
  simp [RunEval, h]

theorem claim_C5_witness :
    stArmed7.m_evalResult.isSome = true ∧
    RunEval stArmed7 7 evalOK S_OK S_OK = Except.error () :=
  ⟨by decide, claim_C5 stArmed7 7 evalOK S_OK S_OK (by decide)⟩

/-- C6: `NotifyEvalComplete` dispatch — a null thread unconditionally clears
the Result Slot without fulfilling the promise; a non-null thread with no
request armed, or whose id does not match the armed request's owner, is a
no-op (state unchanged, nothing delivered); only a matching thread id fulfills
the promise and clears the slot; and after any completed `WaitEvalResult` run
that started with an empty slot (in particular the timeout/fatal abandonment
run `_hArr`), a late completion is dropped. -/
theorem claim_C6 (stA stB stC stD : WaiterState) (thB thC thD : Thread)
    (pEval : Option Eval) (erC erD : evalResult_t) (env : Env)
    (o : WaitResultOutcome)
    (hB : stB.m_evalResult = none)
    (hC : stC.m_evalResult = some erC) (hCne : erC.threadId ≠ thC.id)
    (hD : stD.m_evalResult = some erD) (hDeq : erD.threadId = thD.id)
    (_hArr : env.arrival = Arrival.never)
    (hok : WaitEvalResult stB env = Except.ok o) :
    NotifyEvalComplete stA none pEval =
      ({ stA with m_evalResult := none }, none) ∧
    NotifyEvalComplete stB (some thB) pEval = (stB, none) ∧
    NotifyEvalComplete stC (some thC) pEval = (stC, none) ∧
    NotifyEvalComplete stD (some thD) pEval =
      ({ stD with m_evalResult := none }, some (GetResultData pEval)) ∧
    o.finalState.m_evalResult = none ∧
    NotifyEvalComplete o.finalState (some thB) pEval = (o.finalState, none) := by
  have hfin := waitEvalResult_final_slot_none stB env hB o hok
  refine ⟨rfl, notify_none_slot _ _ _ hB, ?_, ?_, hfin,
    notify_none_slot _ _ _ hfin⟩
  · simp [NotifyEvalComplete, hC, hCne]
  · simp [NotifyEvalComplete, hD, hDeq]

theorem claim_C6_witness :
    (NotifyEvalComplete stArmed7 none (some evalOK) =
      ({ stArmed7 with m_evalResult := none }, none) ∧
    NotifyEvalComplete stIdle (some th7) (some evalOK) = (stIdle, none) ∧
    NotifyEvalComplete stArmed7 (some th9) (some evalOK) = (stArmed7, none) ∧
    NotifyEvalComplete stArmed7 (some th7) (some evalOK) =
      ({ stArmed7 with m_evalResult := none },
       some (GetResultData (some evalOK))) ∧
    (okOutcome stIdle envNever).finalState.m_evalResult = none ∧
    NotifyEvalComplete (okOutcome stIdle envNever).finalState (some th7)
      (some evalOK) = ((okOutcome stIdle envNever).finalState, none)) :=
  claim_C6 stArmed7 stIdle stArmed7 stArmed7 th7 th9 th7 (some evalOK)
    { threadId := 7, pEval := evalOK } { threadId := 7, pEval := evalOK }
    envNever (okOutcome stIdle envNever)
    (by decide) (by decide) (by decide) (by decide) (by decide) (by decide)
    (by decide)

/-- C8: the cross-thread notification callback — with no active evaluation for
the notifying thread it returns `S_OK` without side effects; with one active it
aborts gracefully, falling back to a rude abort; if both fail (including a
failing `QueryInterface` on the way to the rude abort) the underlying engine
error is returned and the flag is not set; on a successful abort it sets
`m_evalCrossThreadDependency` and returns `S_OK`. -/
theorem claim_C8 (stN stG stR stQ stB : WaiterState) (th : Thread)
    (eG eR eQ eB : Eval)
    (hN : FindEvalForThread stN th = none)
    (hG : FindEvalForThread stG th = some eG) (hGa : SUCCEEDED eG.abortStatus)
    (hR : FindEvalForThread stR th = some eR) (hRa : FAILED eR.abortStatus)
    (hRq : SUCCEEDED eR.queryEval2Status) (hRr : SUCCEEDED eR.rudeAbortStatus)
    (hQ : FindEvalForThread stQ th = some eQ) (hQa : FAILED eQ.abortStatus)
    (hQq : FAILED eQ.queryEval2Status)
    (hB : FindEvalForThread stB th = some eB) (hBa : FAILED eB.abortStatus)
    (hBq : SUCCEEDED eB.queryEval2Status) (hBr : FAILED eB.rudeAbortStatus) :
    ManagedCallbackCustomNotification stN th = (stN, S_OK) ∧
    ManagedCallbackCustomNotification stG th =
      ({ stG with m_evalCrossThreadDependency := true }, S_OK) ∧
    ManagedCallbackCustomNotification stR th =
      ({ stR with m_evalCrossThreadDependency := true }, S_OK) ∧
    ManagedCallbackCustomNotification stQ th = (stQ, eQ.queryEval2Status) ∧
    ManagedCallbackCustomNotification stB th = (stB, eB.rudeAbortStatus) := by
  refine ⟨?_, ?_, ?_, ?_, ?_⟩
  · simp [ManagedCallbackCustomNotification, hN]
  · simp [ManagedCallbackCustomNotification, hG, hGa]
  · simp [ManagedCallbackCustomNotification, hR, failed_not_succeeded hRa,
      succeeded_not_failed hRq, hRr]
  · simp [ManagedCallbackCustomNotification, hQ, failed_not_succeeded hQa,
      hQq]
  · simp [ManagedCallbackCustomNotification, hB, failed_not_succeeded hBa,
      succeeded_not_failed hBq, failed_not_succeeded hBr]

theorem claim_C8_witness :
    (ManagedCallbackCustomNotification stIdle th7 = (stIdle, S_OK) ∧
    ManagedCallbackCustomNotification stArmed7 th7 =
      ({ stArmed7 with m_evalCrossThreadDependency := true }, S_OK) ∧
    ManagedCallbackCustomNotification (stArmed7With evalAbortFallback) th7 =
      ({ stArmed7With evalAbortFallback with
          m_evalCrossThreadDependency := true }, S_OK) ∧
    ManagedCallbackCustomNotification (stArmed7With evalAbortQIFail) th7 =
      (stArmed7With evalAbortQIFail, evalAbortQIFail.queryEval2Status) ∧
    ManagedCallbackCustomNotification (stArmed7With evalAbortBothFail) th7 =
      (stArmed7With evalAbortBothFail, evalAbortBothFail.rudeAbortStatus)) :=
  claim_C8 stIdle stArmed7 (stArmed7With evalAbortFallback)
    (stArmed7With evalAbortQIFail) (stArmed7With evalAbortBothFail) th7
    evalOK evalAbortFallback evalAbortQIFail evalAbortBothFail
    (by decide) (by decide) (by decide) (by decide) (by decide) (by decide)
    (by decide) (by decide) (by decide) (by decide) (by decide) (by decide)
    (by decide) (by decide)

/-- C9: `CancelEvalRunning` — a no-op with no armed evaluation; with one armed
it attempts graceful then rude abort and sets `m_evalCanceled` exactly when one
of the two succeeds; through the final status translation, the `canceled` and
`crossThreadDependency` flags alone make a user cancellation
(`COR_E_OPERATIONCANCELED`) distinguishable from a timeout-induced abort
(`COR_E_TIMEOUT`) and from a cross-thread-dependency abort
(`CORDBG_E_CANT_CALL_ON_THIS_THREAD`, which takes precedence). -/
theorem claim_C9 (stN stS stF : WaiterState) (erS erF : evalResult_t)
    (hN : stN.m_evalResult = none)
    (hS : stS.m_evalResult = some erS)
    (hSa : SUCCEEDED erS.pEval.abortStatus ∨
      (SUCCEEDED erS.pEval.queryEval2Status ∧
       SUCCEEDED erS.pEval.rudeAbortStatus))
    (hF : stF.m_evalResult = some erF)
    (hFa : ¬ SUCCEEDED erF.pEval.abortStatus)
    (hFb : ¬ (SUCCEEDED erF.pEval.queryEval2Status ∧
      SUCCEEDED erF.pEval.rudeAbortStatus)) :
    CancelEvalRunning stN = stN ∧
    CancelEvalRunning stS = { stS with m_evalCanceled := true } ∧
    CancelEvalRunning stF = stF ∧
    translateStatus CORDBG_S_FUNC_EVAL_ABORTED false true true =
      COR_E_OPERATIONCANCELED ∧
    translateStatus CORDBG_S_FUNC_EVAL_ABORTED false false true =
      COR_E_TIMEOUT ∧
    translateStatus CORDBG_S_FUNC_EVAL_ABORTED true false true =
      CORDBG_E_CANT_CALL_ON_THIS_THREAD ∧
    translateStatus CORDBG_S_FUNC_EVAL_ABORTED true true true =
      CORDBG_E_CANT_CALL_ON_THIS_THREAD ∧
    COR_E_OPERATIONCANCELED ≠ COR_E_TIMEOUT ∧
    COR_E_OPERATIONCANCELED ≠ CORDBG_E_CANT_CALL_ON_THIS_THREAD ∧
    COR_E_TIMEOUT ≠ CORDBG_E_CANT_CALL_ON_THIS_THREAD := by
  refine ⟨?_, ?_, ?_, by decide, by decide, by decide, by decide, by decide,
    by decide, by decide⟩
  · simp [CancelEvalRunning, hN]
  · simp [CancelEvalRunning, hS, hSa]
  · simp [CancelEvalRunning, hF, hFa, hFb]

theorem claim_C9_witness :
    (CancelEvalRunning stIdle = stIdle ∧
    CancelEvalRunning stArmed7 = { stArmed7 with m_evalCanceled := true } ∧
    CancelEvalRunning (stArmed7With evalAbortQIFail) =
      stArmed7With evalAbortQIFail ∧
    translateStatus CORDBG_S_FUNC_EVAL_ABORTED false true true =
      COR_E_OPERATIONCANCELED ∧
    translateStatus CORDBG_S_FUNC_EVAL_ABORTED false false true =
      COR_E_TIMEOUT ∧
    translateStatus CORDBG_S_FUNC_EVAL_ABORTED true false true =
      CORDBG_E_CANT_CALL_ON_THIS_THREAD ∧
    translateStatus CORDBG_S_FUNC_EVAL_ABORTED true true true =
      CORDBG_E_CANT_CALL_ON_THIS_THREAD ∧
    COR_E_OPERATIONCANCELED ≠ COR_E_TIMEOUT ∧
    COR_E_OPERATIONCANCELED ≠ CORDBG_E_CANT_CALL_ON_THIS_THREAD ∧
    COR_E_TIMEOUT ≠ CORDBG_E_CANT_CALL_ON_THIS_THREAD) :=
  claim_C9 stIdle stArmed7 (stArmed7With evalAbortQIFail)
    { threadId := 7, pEval := evalOK }
    { threadId := 7, pEval := evalAbortQIFail }
    (by decide) (by decide) (by decide) (by decide) (by decide) (by decide)

/-- C10 (implicit): `NotifyEvalComplete` with a non-null thread whose id
matches the armed request's owner but with a null evaluation handle still
fulfills the promise and clears the slot, delivering the default-constructed
outcome — whose status (`evalResultDataDefaultStatus`) was never read from any
engine handle and which carries no result value handle; a null eval handle is
a completion, not the reset signal: with a non-matching thread id it is still
a no-op, while only a null thread clears the slot unconditionally without
fulfilling. -/
theorem claim_C10 (st st2 : WaiterState) (th th2 : Thread)
    (er er2 : evalResult_t)
    (h : st.m_evalResult = some er) (hid : er.threadId = th.id)
    (h2 : st2.m_evalResult = some er2) (h2ne : er2.threadId ≠ th2.id) :
    NotifyEvalComplete st (some th) none =
      ({ st with m_evalResult := none },
       some { Status := evalResultDataDefaultStatus, iCorEval := none }) ∧
    NotifyEvalComplete st2 (some th2) none = (st2, none) ∧
    NotifyEvalComplete st2 none none =
      ({ st2 with m_evalResult := none }, none) := by
  refine ⟨?_, ?_, rfl⟩
  · simp [NotifyEvalComplete, GetResultData, h, hid]
  · simp [NotifyEvalComplete, h2, h2ne]

theorem claim_C10_witness :
    (NotifyEvalComplete stArmed7 (some th7) none =
      ({ stArmed7 with m_evalResult := none },
       some { Status := evalResultDataDefaultStatus, iCorEval := none }) ∧
    NotifyEvalComplete stArmed7 (some th9) none = (stArmed7, none) ∧
    NotifyEvalComplete stArmed7 none none =
      ({ stArmed7 with m_evalResult := none }, none)) :=
  claim_C10 stArmed7 stArmed7 th7 th9 { threadId := 7, pEval := evalOK }
    { threadId := 7, pEval := evalOK }
    (by decide) (by decide) (by decide) (by decide)

theorem translate_timeout_failed (raw : HRESULT) (c k : Bool) :
    FAILED (translateStatus raw c k true) := by
  unfold translateStatus
  by_cases h : raw = CORDBG_S_FUNC_EVAL_ABORTED
  · rw [if_pos h]
    split_ifs <;> decide
  · rw [if_neg h]
    simp only [if_true]
    split_ifs <;> decide

theorem waitBudget_append (a b : List EngineAction) :
    waitBudget (a ++ b) = waitBudget a + waitBudget b := by
  simp [waitBudget]

theorem esc_budget (st : WaiterState) (env : Env) :
    waitBudget (timeoutEscalation st env).2 = 0 := by
  unfold timeoutEscalation
  split_ifs <;> rfl

theorem esc_count_setup (st : WaiterState) (env : Env) :
    (timeoutEscalation st env).2.count EngineAction.setupCallbackCall = 0 := by
  unfold timeoutEscalation
  split_ifs <;> rfl

theorem waitPhase_budget (st : WaiterState) (tr : List EngineAction)
    (env : Env) :
    waitBudget (waitPhase st tr env).tr = waitBudget tr + 10000 := by
  have e := esc_budget st env
  have b1 : waitBudget [EngineAction.waitFor 5000] = 5000 := rfl
  have b2 : waitBudget [EngineAction.waitFor 5000,
    EngineAction.waitFor 5000] = 10000 := rfl
  have b3 : waitBudget [EngineAction.waitFor 5000,
    EngineAction.stopProcess] = 5000 := rfl
  cases h : env.arrival <;>
    simp only [waitPhase, h, deliverOutcome_tr, waitBudget_append] <;>
    omega

theorem waitPhase_count_setup (st : WaiterState) (tr : List EngineAction)
    (env : Env) :
    (waitPhase st tr env).tr.count EngineAction.setupCallbackCall =
      tr.count EngineAction.setupCallbackCall := by
  cases h : env.arrival <;>
    simp [waitPhase, h, deliverOutcome_tr, List.count_append,
      esc_count_setup]

theorem waitPhase_evalTimeOut (st : WaiterState) (tr : List EngineAction)
    (env : Env) :
    (waitPhase st tr env).evalTimeOut =
      (env.arrival = Arrival.grace ∨ env.arrival = Arrival.never) := by
  cases h : env.arrival <;>
    simp [waitPhase, h, deliverOutcome_evalTimeOut]

theorem waitResultLambda_budget (st : WaiterState) (env : Env)
    (r : WaitResultRaw) (h : WaitResultLambda st env = Except.ok r) :
    waitBudget r.tr ≤ 10000 := by
  cases hm : st.m_evalResult with
  | some er =>
    unfold WaitResultLambda at h
    by_cases hc : FAILED env.createEvalStatus
    · rw [if_pos hc] at h
      simp only [Except.ok.injEq] at h
      rw [← h]
      simp [waitBudget]
    · rw [if_neg hc] at h
      have harm : (stSuspended st env).m_evalResult.isSome = true := by
        simp [stSuspended, hm]
      unfold RunEval at h
      rw [if_pos harm] at h
      exact absurd h (by simp)
  | none =>
    rw [waitResultLambda_eq st env hm] at h
    by_cases hc : FAILED env.createEvalStatus
    · rw [if_pos hc] at h
      simp only [Except.ok.injEq] at h
      rw [← h]
      simp [waitBudget]
    · rw [if_neg hc] at h
      by_cases hs : FAILED env.setupStatus
      · rw [if_pos hs] at h
        simp only [Except.ok.injEq] at h
        rw [← h]
        simp [waitBudget]
      · rw [if_neg hs] at h
        by_cases hk : FAILED env.continueStatus
        · rw [if_pos hk] at h
          simp only [Except.ok.injEq] at h
          rw [← h]
          simp [waitBudget]
        · rw [if_neg hk] at h
          simp only [Except.ok.injEq] at h
          rw [← h, waitPhase_budget]
          have hz : waitBudget [EngineAction.suspendOtherThreads,
            EngineAction.createEval, EngineAction.setupCallbackCall,
            EngineAction.continueProcess] = 0 := rfl
          omega

theorem waitEvalResult_budget (st : WaiterState) (env : Env)
    (o : WaitResultOutcome) (hok : WaitEvalResult st env = Except.ok o) :
    waitBudget o.trace ≤ 10000 := by
  unfold WaitEvalResult at hok
  by_cases h1 : FAILED env.getProcessStatus
  · rw [if_pos h1] at hok
    simp only [Except.ok.injEq] at hok
    rw [← hok]
    simp [earlyReturn, waitBudget]
  · rw [if_neg h1] at hok
    by_cases h2 : env.processNull = true
    · rw [if_pos h2] at hok
      simp only [Except.ok.injEq] at hok
      rw [← hok]
      simp [earlyReturn, waitBudget]
    · rw [if_neg h2] at hok
      by_cases h3 : FAILED env.getIdStatus
      · rw [if_pos h3] at hok
        simp only [Except.ok.injEq] at hok
        rw [← hok]
        simp [earlyReturn, waitBudget]
      · rw [if_neg h3] at hok
        cases hw : WaitResultLambda (stEnabled st) env with
        | error e => rw [hw] at hok; exact absurd hok (by simp)
        | ok r =>
          rw [hw] at hok
          simp only [Except.ok.injEq] at hok
          rw [← hok]
          have hb := waitResultLambda_budget (stEnabled st) env r hw
          simp only [assembleOutcome, waitBudget_append]
          have hz1 : waitBudget [EngineAction.enableNotification] = 0 := rfl
          have hz2 : waitBudget [EngineAction.disableNotification,
            EngineAction.resumeOtherThreads] = 0 := rfl
          omega

theorem waitEvalResult_timedOut_failed (st : WaiterState) (env : Env)
    (o : WaitResultOutcome) (hok : WaitEvalResult st env = Except.ok o)
    (ht : o.evalTimedOut = true) : FAILED o.hr := by
  unfold WaitEvalResult at hok
  by_cases h1 : FAILED env.getProcessStatus
  · rw [if_pos h1] at hok
    simp only [Except.ok.injEq] at hok
    rw [← hok] at ht
    exact absurd ht (by simp [earlyReturn])
  · rw [if_neg h1] at hok
    by_cases h2 : env.processNull = true
    · rw [if_pos h2] at hok
      simp only [Except.ok.injEq] at hok
      rw [← hok] at ht
      exact absurd ht (by simp [earlyReturn])
    · rw [if_neg h2] at hok
      by_cases h3 : FAILED env.getIdStatus
      · rw [if_pos h3] at hok
        simp only [Except.ok.injEq] at hok
        rw [← hok] at ht
        exact absurd ht (by simp [earlyReturn])
      · rw [if_neg h3] at hok
        cases hw : WaitResultLambda (stEnabled st) env with
        | error e => rw [hw] at hok; exact absurd hok (by simp)
        | ok r =>
          rw [hw] at hok
          simp only [Except.ok.injEq] at hok
          rw [← hok] at ht ⊢
          simp only [assembleOutcome] at ht ⊢
          rw [ht]
          exact translate_timeout_failed _ _ _

theorem allOthersRunning_CTS (failIds : List Nat) (tid : Nat)
    (ts : List (Nat × Bool)) :
    allOthersRunning (ChangeThreadsState failIds tid true ts) tid failIds =
      true := by
  unfold allOthersRunning ChangeThreadsState
  rw [List.all_eq_true]
  intro x hx
  obtain ⟨p, hp, rfl⟩ := List.mem_map.mp hx
  by_cases h : p.1 ≠ tid ∧ p.1 ∉ failIds
  · rw [if_pos h]
    simp
  · rw [if_neg h]
    rw [not_and_or, not_not, not_not] at h
    rcases h with h | h <;> simp [h]

theorem reverse_take_two (pre t : List EngineAction) :
    ((pre ++ t ++ [EngineAction.disableNotification,
      EngineAction.resumeOtherThreads]).reverse.take 2) =
      [EngineAction.resumeOtherThreads, EngineAction.disableNotification] := by
  simp [List.reverse_append]

theorem waitPhase_tr_append (st : WaiterState) (tr : List EngineAction)
    (env : Env) : ∃ x, (waitPhase st tr env).tr = tr ++ x := by
  cases h : env.arrival
  case primary =>
    exact ⟨[EngineAction.waitFor 5000, EngineAction.waitFor 5000],
      by simp [waitPhase, h, deliverOutcome_tr]⟩
  case grace =>
    refine ⟨[EngineAction.waitFor 5000] ++
      (timeoutEscalation st env).2 ++ [EngineAction.waitFor 5000], ?_⟩
    simp [waitPhase, h, deliverOutcome_tr]
  case never =>
    refine ⟨[EngineAction.waitFor 5000] ++ (timeoutEscalation st env).2 ++
      [EngineAction.waitFor 5000, EngineAction.stopProcess], ?_⟩
    simp [waitPhase, h]
  case abandoned =>
    exact ⟨[EngineAction.waitFor 5000, EngineAction.waitFor 5000],
      by simp [waitPhase, h]⟩

/-- C4: on every exit path of `WaitEvalResult` that reaches the evaluation
attempt (i.e. past the `GetProcess`/`GetID` fail-fast checks) — normal
completion, setup failure, resume (`Continue`) failure, timeout-recovered, and
fatal — the custom cross-thread notification is disabled and all inferior
threads other than the eval thread are set back to running (best-effort: every
thread whose final `SetDebugState` the engine accepts is running) before
`WaitEvalResult` returns; the trace always ends with the disable-notification
and resume-all actions. -/
theorem claim_C4 (stIn : WaiterState) (env : Env) (o : WaitResultOutcome)
    (h1 : ¬ FAILED env.getProcessStatus) (h2 : env.processNull = false)
    (h3 : ¬ FAILED env.getIdStatus) (_hIn : stIn.m_evalResult = none)
    (hok : WaitEvalResult stIn env = Except.ok o) :
    o.finalState.notificationEnabled = false ∧
    allOthersRunning o.finalState.threadStates env.evalThreadId
      env.resumeFailIds = true ∧
    o.trace.reverse.take 2 =
      [EngineAction.resumeOtherThreads, EngineAction.disableNotification] := by
  rw [waitEvalResult_eq stIn env h1 h2 h3] at hok
  cases hw : WaitResultLambda (stEnabled stIn) env with
  | error e => rw [hw] at hok; exact absurd hok (by simp)
  | ok r =>
    rw [hw] at hok
    simp only [Except.ok.injEq] at hok
    rw [← hok]
    refine ⟨rfl, ?_, ?_⟩
    · exact allOthersRunning_CTS _ _ _
    · exact reverse_take_two _ _

theorem claim_C4_witness :
    ((okOutcome stIdle envBase).finalState.notificationEnabled = false ∧
    allOthersRunning (okOutcome stIdle envBase).finalState.threadStates
      envBase.evalThreadId envBase.resumeFailIds = true ∧
    (okOutcome stIdle envBase).trace.reverse.take 2 =
      [EngineAction.resumeOtherThreads, EngineAction.disableNotification]) :=
  claim_C4 stIdle envBase (okOutcome stIdle envBase) (by decide) (by decide)
    (by decide) (by decide) (by decide)

/-- C7: the setup callback is invoked exactly once per `WaitEvalResult` call
that reaches the evaluation attempt, immediately after the evaluation handle is
created and before the process is resumed (the trace starts with
enable-notification, suspend, create-eval, setup-callback, and contains exactly
one setup-callback action); when the callback fails, `WaitEvalResult` returns
that same failure status, the process is never resumed (`Continue` absent from
the trace), the slot is cleared so `IsEvalRunning` is false, and the run
performs only the cleanup actions afterwards. -/
theorem claim_C7 (stIn : WaiterState) (env : Env) (o : WaitResultOutcome)
    (stInF : WaiterState) (envF : Env) (oF : WaitResultOutcome)
    (h1 : ¬ FAILED env.getProcessStatus) (h2 : env.processNull = false)
    (h3 : ¬ FAILED env.getIdStatus) (h4 : ¬ FAILED env.createEvalStatus)
    (hIn : stIn.m_evalResult = none)
    (hok : WaitEvalResult stIn env = Except.ok o)
    (hF1 : ¬ FAILED envF.getProcessStatus) (hF2 : envF.processNull = false)
    (hF3 : ¬ FAILED envF.getIdStatus) (hF4 : ¬ FAILED envF.createEvalStatus)
    (hFs : FAILED envF.setupStatus)
    (hInF : stInF.m_evalResult = none)
    (hokF : WaitEvalResult stInF envF = Except.ok oF) :
    o.trace.count EngineAction.setupCallbackCall = 1 ∧
    o.trace.take 4 =
      [EngineAction.enableNotification, EngineAction.suspendOtherThreads,
       EngineAction.createEval, EngineAction.setupCallbackCall] ∧
    oF.hr = envF.setupStatus ∧
    oF.trace = [EngineAction.enableNotification,
      EngineAction.suspendOtherThreads, EngineAction.createEval,
      EngineAction.setupCallbackCall, EngineAction.disableNotification,
      EngineAction.resumeOtherThreads] ∧
    oF.trace.count EngineAction.continueProcess = 0 ∧
    IsEvalRunning oF.finalState = false := by
  rw [waitEvalResult_eq stIn env h1 h2 h3,
    waitResultLambda_eq (stEnabled stIn) env hIn, if_neg h4] at hok
  rw [waitEvalResult_eq stInF envF hF1 hF2 hF3,
    waitResultLambda_eq (stEnabled stInF) envF hInF, if_neg hF4,
    if_pos hFs] at hokF
  simp only [Except.ok.injEq] at hokF
  have hgen : o.trace.count EngineAction.setupCallbackCall = 1 ∧
      o.trace.take 4 =
        [EngineAction.enableNotification, EngineAction.suspendOtherThreads,
         EngineAction.createEval, EngineAction.setupCallbackCall] := by
    by_cases hs : FAILED env.setupStatus
    · rw [if_pos hs] at hok
      simp only [Except.ok.injEq] at hok
      rw [← hok]
      exact ⟨rfl, rfl⟩
    · rw [if_neg hs] at hok
      by_cases hk : FAILED env.continueStatus
      · rw [if_pos hk] at hok
        simp only [Except.ok.injEq] at hok
        rw [← hok]
        exact ⟨rfl, rfl⟩
      · rw [if_neg hk] at hok
        simp only [Except.ok.injEq] at hok
        rw [← hok]
        constructor
        · simp only [assembleOutcome, List.count_append,
            waitPhase_count_setup]
          decide
        · obtain ⟨x, hx⟩ := waitPhase_tr_append
            { stSuspended (stEnabled stIn) env with
                m_evalResult :=
                  some { threadId := env.evalThreadId, pEval := env.eval } }
            [EngineAction.suspendOtherThreads, EngineAction.createEval,
             EngineAction.setupCallbackCall, EngineAction.continueProcess]
            env
          simp only [assembleOutcome, hx]
          rfl
  rw [← hokF]
  refine ⟨hgen.1, hgen.2, ?_, rfl, rfl, rfl⟩
  exact translate_no_abort_no_timeout _ _ _ (failed_ne_aborted hFs)

theorem claim_C7_witness :
    ((okOutcome stIdle envBase).trace.count
      EngineAction.setupCallbackCall = 1 ∧
    (okOutcome stIdle envBase).trace.take 4 =
      [EngineAction.enableNotification, EngineAction.suspendOtherThreads,
       EngineAction.createEval, EngineAction.setupCallbackCall] ∧
    (okOutcome stIdle envSetupFail).hr = envSetupFail.setupStatus ∧
    (okOutcome stIdle envSetupFail).trace = [EngineAction.enableNotification,
      EngineAction.suspendOtherThreads, EngineAction.createEval,
      EngineAction.setupCallbackCall, EngineAction.disableNotification,
      EngineAction.resumeOtherThreads] ∧
    (okOutcome stIdle envSetupFail).trace.count
      EngineAction.continueProcess = 0 ∧
    IsEvalRunning (okOutcome stIdle envSetupFail).finalState = false) :=
  claim_C7 stIdle envBase (okOutcome stIdle envBase) stIdle envSetupFail
    (okOutcome stIdle envSetupFail) (by decide) (by decide) (by decide)
    (by decide) (by decide) (by decide) (by decide) (by decide) (by decide)
    (by decide) (by decide) (by decide) (by decide)

/-- C1: for every evaluation that completes successfully (completion within
the primary window, outcome not the aborted marker), `WaitEvalResult` returns
to the caller exactly the outcome delivered by `NotifyEvalComplete` for the
matching thread id, exactly once: a failure status in the outcome is returned
verbatim (group F), otherwise the result value handle is stored into the
caller's out-slot and the outcome's status returned (group S); in both cases
the delivery cleared the slot, so a second completion for the same thread is a
no-op — the outcome is consumed exactly once. -/
theorem claim_C1
    (stcF stF stInF : WaiterState) (thF : Thread) (pEvalF : Option Eval)
    (dF : evalResultData_t) (envF : Env) (oF : WaitResultOutcome)
    (stcS stS stInS : WaiterState) (thS : Thread) (pEvalS : Option Eval)
    (dS : evalResultData_t) (envS : Env) (oS : WaitResultOutcome)
    (hdF : NotifyEvalComplete stcF (some thF) pEvalF = (stF, some dF))
    (hFf : FAILED dF.Status)
    (hEnvF : envF.delivered = dF) (hArrF : envF.arrival = Arrival.primary)
    (hF1 : ¬ FAILED envF.getProcessStatus) (hF2 : envF.processNull = false)
    (hF3 : ¬ FAILED envF.getIdStatus) (hF4 : ¬ FAILED envF.createEvalStatus)
    (hF5 : ¬ FAILED envF.setupStatus) (hF6 : ¬ FAILED envF.continueStatus)
    (hInF : stInF.m_evalResult = none)
    (hokF : WaitEvalResult stInF envF = Except.ok oF)
    (hdS : NotifyEvalComplete stcS (some thS) pEvalS = (stS, some dS))
    (hSs : ¬ FAILED dS.Status)
    (hSab : dS.Status ≠ CORDBG_S_FUNC_EVAL_ABORTED)
    (hEnvS : envS.delivered = dS) (hArrS : envS.arrival = Arrival.primary)
    (hOutS : envS.outSlotProvided = true)
    (hS1 : ¬ FAILED envS.getProcessStatus) (hS2 : envS.processNull = false)
    (hS3 : ¬ FAILED envS.getIdStatus) (hS4 : ¬ FAILED envS.createEvalStatus)
    (hS5 : ¬ FAILED envS.setupStatus) (hS6 : ¬ FAILED envS.continueStatus)
    (hInS : stInS.m_evalResult = none)
    (hokS : WaitEvalResult stInS envS = Except.ok oS) :
    oF.hr = dF.Status ∧ oF.outValue = none ∧
    stF.m_evalResult = none ∧
    NotifyEvalComplete stF (some thF) pEvalF = (stF, none) ∧
    oS.hr = dS.Status ∧ oS.outValue = dS.iCorEval ∧
    stS.m_evalResult = none ∧
    NotifyEvalComplete stS (some thS) pEvalS = (stS, none) := by
  have hslotF := notify_delivered_slot_none _ _ _ _ _ hdF
  have hslotS := notify_delivered_slot_none _ _ _ _ _ hdS
  rw [waitEvalResult_success_shape stInF envF hInF hF1 hF2 hF3 hF4 hF5 hF6]
    at hokF
  simp only [Except.ok.injEq] at hokF
  rw [waitEvalResult_success_shape stInS envS hInS hS1 hS2 hS3 hS4 hS5 hS6]
    at hokS
  simp only [Except.ok.injEq] at hokS
  rw [← hokF, ← hokS]
  refine ⟨?_, ?_, hslotF, notify_none_slot _ _ _ hslotF, ?_, ?_, hslotS,
    notify_none_slot _ _ _ hslotS⟩
  · simp only [assembleOutcome, waitPhase, hArrF, deliverOutcome, hEnvF]
    rw [if_pos hFf]
    dsimp only
    exact translate_no_abort_no_timeout _ _ _ (failed_ne_aborted hFf)
  · simp only [assembleOutcome, waitPhase, hArrF, deliverOutcome, hEnvF]
    rw [if_pos hFf]
  · simp only [assembleOutcome, waitPhase, hArrS, deliverOutcome, hEnvS]
    rw [if_neg hSs, if_neg (by simp [hOutS])]
    dsimp only
    exact translate_no_abort_no_timeout _ _ _ hSab
  · simp only [assembleOutcome, waitPhase, hArrS, deliverOutcome, hEnvS]
    rw [if_neg hSs, if_neg (by simp [hOutS])]

theorem claim_C1_witness :
    ((okOutcome stIdle envDeliveredFail).hr = dFail.Status ∧
    (okOutcome stIdle envDeliveredFail).outValue = none ∧
    stCleared.m_evalResult = none ∧
    NotifyEvalComplete stCleared (some th7) (some evalResultFail) =
      (stCleared, none) ∧
    (okOutcome stIdle envBase).hr = dOK.Status ∧
    (okOutcome stIdle envBase).outValue = dOK.iCorEval ∧
    stCleared.m_evalResult = none ∧
    NotifyEvalComplete stCleared (some th7) (some evalOK) =
      (stCleared, none)) :=
  claim_C1 stArmed7 stCleared stIdle th7 (some evalResultFail) dFail
    envDeliveredFail (okOutcome stIdle envDeliveredFail)
    stArmed7 stCleared stIdle th7 (some evalOK) dOK envBase
    (okOutcome stIdle envBase)
    (by decide) (by decide) (by decide) (by decide) (by decide) (by decide)
    (by decide) (by decide) (by decide) (by decide) (by decide) (by decide)
    (by decide) (by decide) (by decide) (by decide) (by decide) (by decide)
    (by decide) (by decide) (by decide) (by decide) (by decide) (by decide)
    (by decide) (by decide)

/-- C2 (amended): if no completion arrives within the primary 5000 ms wait,
`WaitEvalResult` attempts abort (graceful, then rude) after resuming all
threads, then waits one further 5000 ms grace window.  If no completion is
observed at all, the Result Slot is forcibly cleared and the distinct fatal
status `E_UNEXPECTED` is returned, with the exact escalation trace
`neverTrace` (stop, resume-all, abort, continue, grace wait, fatal stop).  If
completion is observed within the grace window, the reported status is
`COR_E_TIMEOUT` — provided no concurrent cancellation or cross-thread abort
set a flag and the outcome's own status is not already the fatal
`E_UNEXPECTED` (in which case `E_UNEXPECTED` is reported, which is what the
counterexample exhibits against the claim as stated).  A timed-out run never
reports a success status, and no run ever waits more than the two bounded
5000 ms windows. -/
theorem claim_C2
    (stN : WaiterState) (envN : Env) (oN : WaitResultOutcome)
    (stG : WaiterState) (envG : Env) (oG : WaitResultOutcome)
    (stT : WaiterState) (envT : Env) (oT : WaitResultOutcome)
    (stW : WaiterState) (envW : Env) (oW : WaitResultOutcome)
    (hNarr : envN.arrival = Arrival.never)
    (hN1 : ¬ FAILED envN.getProcessStatus) (hN2 : envN.processNull = false)
    (hN3 : ¬ FAILED envN.getIdStatus) (hN4 : ¬ FAILED envN.createEvalStatus)
    (hN5 : ¬ FAILED envN.setupStatus) (hN6 : ¬ FAILED envN.continueStatus)
    (hInN : stN.m_evalResult = none)
    (hokN : WaitEvalResult stN envN = Except.ok oN)
    (hGarr : envG.arrival = Arrival.grace)
    (hGc : envG.canceledDuringRun = false)
    (hGx : envG.crossThreadDuringRun = false)
    (hGd : envG.delivered.Status ≠ E_UNEXPECTED)
    (hG1 : ¬ FAILED envG.getProcessStatus) (hG2 : envG.processNull = false)
    (hG3 : ¬ FAILED envG.getIdStatus) (hG4 : ¬ FAILED envG.createEvalStatus)
    (hG5 : ¬ FAILED envG.setupStatus) (hG6 : ¬ FAILED envG.continueStatus)
    (hInG : stG.m_evalResult = none)
    (hokG : WaitEvalResult stG envG = Except.ok oG)
    (hokT : WaitEvalResult stT envT = Except.ok oT)
    (hTt : oT.evalTimedOut = true)
    (hokW : WaitEvalResult stW envW = Except.ok oW) :
    oN.hr = E_UNEXPECTED ∧
    oN.finalState.m_evalResult = none ∧
    oN.trace = neverTrace envN ∧
    oG.hr = COR_E_TIMEOUT ∧
    FAILED oT.hr ∧
    waitBudget oW.trace ≤ 10000 := by
  rw [waitEvalResult_success_shape stN envN hInN hN1 hN2 hN3 hN4 hN5 hN6]
    at hokN
  simp only [Except.ok.injEq] at hokN
  rw [waitEvalResult_success_shape stG envG hInG hG1 hG2 hG3 hG4 hG5 hG6]
    at hokG
  simp only [Except.ok.injEq] at hokG
  refine ⟨?_, ?_, ?_, ?_,
    waitEvalResult_timedOut_failed stT envT oT hokT hTt,
    waitEvalResult_budget stW envW oW hokW⟩
  · rw [← hokN]
    simp only [assembleOutcome, waitPhase, hNarr]
    rw [translate_no_abort_timeout _ _ _ (by decide)]
    decide
  · rw [← hokN]
    simp only [assembleOutcome, waitPhase, hNarr]
    rfl
  · rw [← hokN]
    simp only [assembleOutcome, waitPhase, hNarr, timeoutEscalation,
      neverTrace]
    by_cases hra : FAILED envN.eval.abortStatus ∧
      SUCCEEDED envN.eval.queryEval2Status
    · simp [hra]
    · simp [hra]
  · rw [← hokG]
    simp only [assembleOutcome, waitPhase, hGarr, deliverOutcome]
    by_cases habort : envG.delivered.Status = CORDBG_S_FUNC_EVAL_ABORTED
    · have hnf : ¬ FAILED envG.delivered.Status := by rw [habort]; decide
      by_cases hout : envG.outSlotProvided = false
      · rw [if_neg hnf, if_pos hout]
        dsimp only
        rw [translate_no_abort_timeout _ _ _ (by decide)]
        decide
      · rw [if_neg hnf, if_neg hout]
        dsimp only
        rw [habort, translate_aborted]
        simp [clearSlotAndSetFlags, hGx, hGc]
    · by_cases hf : FAILED envG.delivered.Status
      · rw [if_pos hf]
        dsimp only
        rw [translate_no_abort_timeout _ _ _ habort, if_neg hGd]
      · by_cases hout : envG.outSlotProvided = false
        · rw [if_neg hf, if_pos hout]
          dsimp only
          rw [translate_no_abort_timeout _ _ _ (by decide)]
          decide
        · rw [if_neg hf, if_neg hout]
          dsimp only
          rw [translate_no_abort_timeout _ _ _ habort, if_neg hGd]

theorem claim_C2_witness :
    ((okOutcome stIdle envNever).hr = E_UNEXPECTED ∧
    (okOutcome stIdle envNever).finalState.m_evalResult = none ∧
    (okOutcome stIdle envNever).trace = neverTrace envNever ∧
    (okOutcome stIdle envGrace).hr = COR_E_TIMEOUT ∧
    FAILED (okOutcome stIdle envGrace).hr ∧
    waitBudget (okOutcome stIdle envBase).trace ≤ 10000) :=
  claim_C2 stIdle envNever (okOutcome stIdle envNever)
    stIdle envGrace (okOutcome stIdle envGrace)
    stIdle envGrace (okOutcome stIdle envGrace)
    stIdle envBase (okOutcome stIdle envBase)
    (by decide) (by decide) (by decide) (by decide) (by decide) (by decide)
    (by decide) (by decide) (by decide) (by decide) (by decide) (by decide)
    (by decide) (by decide) (by decide) (by decide) (by decide) (by decide)
    (by decide) (by decide) (by decide) (by decide) (by decide) (by decide)

/-- C2 counterexample: with completion observed within the grace window but
carrying the status `E_UNEXPECTED` itself, `WaitEvalResult` reports
`E_UNEXPECTED`, not `COR_E_TIMEOUT`, refuting the claim's sentence that a
completion within the grace window is always reported as timed out. -/
theorem claim_C2_counterexample :
    envGraceUnexpected.arrival = Arrival.grace ∧
    envGraceUnexpected.canceledDuringRun = false ∧
    envGraceUnexpected.crossThreadDuringRun = false ∧
    outcomeHr (WaitEvalResult stIdle envGraceUnexpected) =
      some E_UNEXPECTED ∧
    outcomeHr (WaitEvalResult stIdle envGraceUnexpected) ≠
      some COR_E_TIMEOUT := by
  refine ⟨rfl, rfl, rfl, by decide, by decide⟩

/-- C3: the final status translation of `WaitEvalResult` over a completed
delivery (out-slot provided): when the raw outcome status is
`CORDBG_S_FUNC_EVAL_ABORTED` (in either wait window), the
`crossThreadDependency` flag takes precedence
(`CORDBG_E_CANT_CALL_ON_THIS_THREAD`), else the `canceled` flag yields
`COR_E_OPERATIONCANCELED`, and with neither flag the result is
`COR_E_TIMEOUT`; when the raw status is not the aborted marker but the run
timed out (grace-window completion), the reported status is forced to
`COR_E_TIMEOUT` unless it is already `E_UNEXPECTED`. -/
theorem claim_C3
    (stA : WaiterState) (envA : Env) (oA : WaitResultOutcome)
    (stB : WaiterState) (envB : Env) (oB : WaitResultOutcome)
    (hAd : envA.delivered.Status = CORDBG_S_FUNC_EVAL_ABORTED)
    (hAarr : envA.arrival = Arrival.primary ∨ envA.arrival = Arrival.grace)
    (hAout : envA.outSlotProvided = true)
    (hA1 : ¬ FAILED envA.getProcessStatus) (hA2 : envA.processNull = false)
    (hA3 : ¬ FAILED envA.getIdStatus) (hA4 : ¬ FAILED envA.createEvalStatus)
    (hA5 : ¬ FAILED envA.setupStatus) (hA6 : ¬ FAILED envA.continueStatus)
    (hInA : stA.m_evalResult = none)
    (hokA : WaitEvalResult stA envA = Except.ok oA)
    (hBd : envB.delivered.Status ≠ CORDBG_S_FUNC_EVAL_ABORTED)
    (hBarr : envB.arrival = Arrival.grace)
    (hBout : envB.outSlotProvided = true)
    (hB1 : ¬ FAILED envB.getProcessStatus) (hB2 : envB.processNull = false)
    (hB3 : ¬ FAILED envB.getIdStatus) (hB4 : ¬ FAILED envB.createEvalStatus)
    (hB5 : ¬ FAILED envB.setupStatus) (hB6 : ¬ FAILED envB.continueStatus)
    (hInB : stB.m_evalResult = none)
    (hokB : WaitEvalResult stB envB = Except.ok oB) :
    oA.hr = (if envA.crossThreadDuringRun then
        CORDBG_E_CANT_CALL_ON_THIS_THREAD
      else if envA.canceledDuringRun then COR_E_OPERATIONCANCELED
      else COR_E_TIMEOUT) ∧
    oB.hr = (if envB.delivered.Status = E_UNEXPECTED then E_UNEXPECTED
      else COR_E_TIMEOUT) := by
  have hAnf : ¬ FAILED envA.delivered.Status := by rw [hAd]; decide
  rw [waitEvalResult_success_shape stA envA hInA hA1 hA2 hA3 hA4 hA5 hA6]
    at hokA
  simp only [Except.ok.injEq] at hokA
  rw [waitEvalResult_success_shape stB envB hInB hB1 hB2 hB3 hB4 hB5 hB6]
    at hokB
  simp only [Except.ok.injEq] at hokB
  constructor
  · rw [← hokA]
    rcases hAarr with h | h
    · simp only [assembleOutcome, waitPhase, h, deliverOutcome]
      rw [if_neg hAnf, if_neg (by simp [hAout])]
      dsimp only
      rw [hAd, translate_aborted]
      simp [clearSlotAndSetFlags]
    · simp only [assembleOutcome, waitPhase, h, deliverOutcome]
      rw [if_neg hAnf, if_neg (by simp [hAout])]
      dsimp only
      rw [hAd, translate_aborted]
      simp [clearSlotAndSetFlags]
  · rw [← hokB]
    simp only [assembleOutcome, waitPhase, hBarr, deliverOutcome]
    by_cases hf : FAILED envB.delivered.Status
    · rw [if_pos hf]
      dsimp only
      exact translate_no_abort_timeout _ _ _ hBd
    · rw [if_neg hf, if_neg (by simp [hBout])]
      dsimp only
      exact translate_no_abort_timeout _ _ _ hBd

theorem claim_C3_witness :
    ((okOutcome stIdle envAbortedCanceled).hr =
      (if envAbortedCanceled.crossThreadDuringRun then
        CORDBG_E_CANT_CALL_ON_THIS_THREAD
      else if envAbortedCanceled.canceledDuringRun then
        COR_E_OPERATIONCANCELED
      else COR_E_TIMEOUT) ∧
    (okOutcome stIdle envGraceUnexpected).hr =
      (if envGraceUnexpected.delivered.Status = E_UNEXPECTED then
        E_UNEXPECTED
      else COR_E_TIMEOUT)) :=
  claim_C3 stIdle envAbortedCanceled (okOutcome stIdle envAbortedCanceled)
    stIdle envGraceUnexpected (okOutcome stIdle envGraceUnexpected)
    (by decide) (by decide) (by decide) (by decide) (by decide) (by decide)
    (by decide) (by decide) (by decide) (by decide) (by decide) (by decide)
    (by decide) (by decide) (by decide) (by decide) (by decide) (by decide)
    (by decide) (by decide) (by decide) (by decide)

end EvalWaiterSpec
